import Mathlib

/-!
Verification of the MagicPhotoBot animation-orchestrator core against its
specification.  The Python source (`app.py`, `limiter.py`, `processing.py`,
`payments/stars_v3.py`) is shallowly embedded below: pure fragments become
Lean functions, the mutable dictionaries become explicit state values that
each operation threads through, and machine behaviour (Python ints, dict
semantics, `defaultdict` read-insertion) is modelled explicitly.
-/

namespace MagicPhotoBot

/-! ## `limiter.py` — `FreeUsageLimiter`

`_usage` is a `collections.defaultdict(int)`: *reading* a missing key
inserts it with value `0`.  We model the dictionary as an association list
in insertion order, so `len(self._usage)` is the list length. -/

structure FreeUsageLimiter where
  max_free : Nat
  usage : List (Nat × Nat)
  total : Nat
  deriving Repr, DecidableEq

/-- `defaultdict(int).__getitem__`: return the stored value, inserting the
key with value `0` when it is absent. -/
def dd_read (m : List (Nat × Nat)) (k : Nat) : Nat × List (Nat × Nat) :=
  match m.lookup k with
  | some v => (v, m)
  | none => (0, m ++ [(k, 0)])

/-- Ordinary dict assignment to a key that is already present (all call
sites below write a key right after `dd_read` has inserted it). -/
def dict_set (m : List (Nat × Nat)) (k v : Nat) : List (Nat × Nat) :=
  m.map (fun p => if p.1 = k then (k, v) else p)

/-- `FreeUsageLimiter.can_use`: `self._usage[user_id] < self.max_free`.
The subscript read mutates the defaultdict, so the updated limiter is
returned alongside the result. -/
def can_use (lim : FreeUsageLimiter) (user_id : Nat) : Bool × FreeUsageLimiter :=
  let r := dd_read lim.usage user_id
  (decide (r.1 < lim.max_free), { lim with usage := r.2 })

/-- `FreeUsageLimiter.mark_used`: `self._usage[user_id] += 1; self._total += 1`. -/
def mark_used (lim : FreeUsageLimiter) (user_id : Nat) : FreeUsageLimiter :=
  let r := dd_read lim.usage user_id
  { lim with usage := dict_set r.2 user_id (r.1 + 1), total := lim.total + 1 }

/-- `FreeUsageLimiter.users_count`: `len(self._usage)`. -/
def users_count (lim : FreeUsageLimiter) : Nat :=
  lim.usage.length

/-- `FreeUsageLimiter.total_count`: `self._total`. -/
def total_count (lim : FreeUsageLimiter) : Nat :=
  lim.total

/-! ## `app.py` — in-memory ledger state

`user_credits : Dict[int, int]` is read only through `.get(uid, 0)`, so we
model it as a total function with default `0` (Python ints are unbounded;
values are `Int` so that the non-negativity claims are not true by type).
`limiter = FreeUsageLimiter(max_free=MAX_FREE_ANIMS_PER_USER)` with env
default `"1"`. -/

structure AppState where
  user_credits : Nat → Int
  limiter : FreeUsageLimiter

/-- `MAX_FREE_ANIMS_PER_USER` env default `"1"`. -/
def MAX_FREE_ANIMS_PER_USER : Nat := 1

/-- Process-start state: `user_credits = {}`, fresh limiter. -/
def init_app_state : AppState :=
  { user_credits := fun _ => 0
    limiter := { max_free := MAX_FREE_ANIMS_PER_USER, usage := [], total := 0 } }

/-- `app.py:913-916` (`on_photo`): the admission gate.  Python's `and`
short-circuits, so `limiter.can_use(uid)` runs (and mutates the
defaultdict) only when `user_credits.get(uid, 0) <= 0`.  The handler
returns (rejects) exactly when both funding checks fail. -/
def on_photo_admission (test_admin : Bool) (st : AppState) (uid : Nat) :
    Bool × AppState :=
  if test_admin then (true, st)
  else if st.user_credits uid ≤ 0 then
    let r := can_use st.limiter uid
    (r.1, { st with limiter := r.2 })
  else (true, st)

/-- `app.py:1080` (`on_confirm_ok`): `had_paid = user_credits.get(uid, 0) > 0`,
recorded before the render begins. -/
def record_had_paid (st : AppState) (uid : Nat) : Bool :=
  decide (0 < st.user_credits uid)

/-- `app.py:1128-1132`: the debit block that runs after a fully successful
render (provider success, artifact downloaded, video sent).  `st` is the
account state *at settlement time*, which concurrent handlers may have
changed since `had_paid` was recorded. -/
def settle_success (test_admin had_paid : Bool) (st : AppState) (uid : Nat) :
    AppState :=
  if test_admin then st
  else if had_paid ∧ 0 < st.user_credits uid then
    { st with user_credits :=
        fun j => if j = uid then st.user_credits uid - 1 else st.user_credits j }
  else { st with limiter := mark_used st.limiter uid }

/-- Result of one `animate_photo_via_replicate` call as seen by
`on_confirm_ok`: `{"ok": True, "url": ...}` or `{"ok": False, "code": ...}`
(`fields` carries the extra key of the 422 error dict, empty otherwise). -/
inductive AnimateResult where
  | ok (url : String)
  | error (code : String) (fields : List String)
  deriving Repr, DecidableEq

/-- `app.py:1095-1145` (`on_confirm_ok`), ledger effect only: on a
non-`ok` result the handler returns at once (`app.py:1103-1106`); on an
`ok` result the debit block runs only after `download_file` and
`bot.send_video` both succeed — any exception in them skips it
(`app.py:1142-1145`). -/
def confirm_settle (test_admin had_paid : Bool) (st : AppState) (uid : Nat)
    (result : AnimateResult) (fetch_ok send_ok : Bool) : AppState :=
  match result with
  | .error _ _ => st
  | .ok _ =>
    if fetch_ok && send_ok then settle_success test_admin had_paid st uid
    else st

/-! ## `processing.py` — provider client

`REPLICATE_API_TOKEN` / `REPLICATE_MODEL` come from `os.getenv`: either
absent (`None`) or a string, and Python's `not x` is true for both `None`
and `""`. -/

structure Config where
  token : Option String
  model : Option String
  deriving Repr, DecidableEq

/-- Python truthiness of an `os.getenv` result. -/
def py_truthy : Option String → Bool
  | none => false
  | some s => !s.isEmpty

/-- `ANIMATE_CONCURRENCY = int(os.getenv("ANIMATE_CONCURRENCY", "4"))`. -/
def ANIMATE_CONCURRENCY_default : Nat := 4

/-- A JSON-ish Python value, as far as `_pick_video_url` inspects it. -/
inductive PyVal where
  | str (s : String)
  | list (xs : List PyVal)
  | dict (kvs : List (String × PyVal))
  | pynone
  deriving Repr

/-- Python `str.endswith`, over the string's character list. -/
def py_endswith (s suffix : String) : Bool :=
  suffix.data.isSuffixOf s.data

/-- `isinstance(u, str) and (u.endswith(".mp4") or u.endswith(".gif"))`. -/
def is_media_str : PyVal → Bool
  | .str u => py_endswith u ".mp4" || py_endswith u ".gif"
  | _ => false

/-- `isinstance(u, str)`. -/
def is_str : PyVal → Bool
  | .str _ => true
  | _ => false

/-- The `dict` branch of `_pick_video_url`: `for k in ("video", "result",
"output"): v = out.get(k); if isinstance(v, str): return v`. -/
def dict_pick (kvs : List (String × PyVal)) : List String → Option String
  | [] => none
  | k :: ks =>
    match kvs.lookup k with
    | some (.str s) => some s
    | _ => dict_pick kvs ks

/-- `processing.py:113-133` (`_pick_video_url`): a plain string is returned
as-is; in a list the first `.mp4`/`.gif` string wins, else the first
string; in a dict the keys `video`, `result`, `output` are tried in order. -/
def _pick_video_url : PyVal → Option String
  | .str s => some s
  | .list xs =>
    match xs.find? is_media_str with
    | some (.str u) => some u
    | _ =>
      match xs.find? is_str with
      | some (.str u) => some u
      | _ => none
  | .dict kvs => dict_pick kvs ["video", "result", "output"]
  | .pynone => none

/-- Non-overlapping substring test, via `String.splitOn`: a non-empty
`needle` occurs in `hay` iff splitting on it yields at least two pieces. -/
def str_contains (hay needle : String) : Bool :=
  decide (2 ≤ (hay.splitOn needle).length)

/-- `processing.py:135-145` (`_extract_fields`): scan the lowercased 422
body for the four known field names, in order, without duplicates. -/
def _extract_fields (text : String) : List String :=
  let lower := text.toLower
  ["face_image", "driving_video", "image", "prompt"].foldl
    (fun fields key =>
      if str_contains lower key && !(fields.contains key) then fields ++ [key]
      else fields)
    []

/-- The HTTP response to `session.post(_REPLICATE_API_URL, ...)`:
`resp.status`, the error body text, and `pred.get("urls", {}).get("get")`
from the JSON body when there is one. -/
structure SubmitResp where
  status : Nat
  body : String
  get_url : Option String
  deriving Repr, DecidableEq

/-- One response of the status-poll loop: `r2.status`, `data.get("status")`,
`data.get("output")`. -/
structure PollResp where
  http_status : Nat
  job_status : String
  output : PyVal
  deriving Repr

/-- `processing.py:82-100`: the poll loop.  A non-200 poll or a
non-terminal status continues the loop; `succeeded` extracts the artifact
URL (`replicate_no_output` when none is extractable); `failed`/`canceled`
yield `replicate_status`.  The enclosing `aiohttp.ClientTimeout(total=
ANIMATE_TIMEOUT)` bounds the whole session, so a run that never observes a
terminal state ends in `asyncio.TimeoutError` → `timeout`
(`processing.py:101-103`); we model it by the finite list of responses the
provider produces within the deadline running out. -/
def poll_loop : List PollResp → AnimateResult
  | [] => .error "timeout" []
  | p :: rest =>
    if p.http_status ≠ 200 then poll_loop rest
    else if p.job_status = "succeeded" ∨ p.job_status = "failed" ∨
        p.job_status = "canceled" then
      if p.job_status = "succeeded" then
        match _pick_video_url p.output with
        | some u => .ok u
        | none => .error "replicate_no_output" []
      else .error "replicate_status" []
    else poll_loop rest

/-- `processing.py:32-111` (`animate_photo_via_replicate`): result of one
call, paired with the number of `session.post` submissions it issued.  The
config check precedes the semaphore and any network activity
(`processing.py:41-43`); the one POST is classified by status
(`processing.py:62-79`) and on 200/201 with a poll URL the poll loop runs. -/
def animate_photo_via_replicate (cfg : Config) (resp : SubmitResp)
    (polls : List PollResp) : AnimateResult × Nat :=
  if !py_truthy cfg.token || !py_truthy cfg.model then (.error "config" [], 0)
  else if resp.status = 402 then (.error "replicate_402" [], 1)
  else if resp.status ≠ 200 ∧ resp.status ≠ 201 then
    if resp.status = 422 then
      (.error "replicate_422_fields" (_extract_fields resp.body), 1)
    else (.error "replicate_create" [], 1)
  else
    match resp.get_url with
    | none => (.error "replicate_create" [], 1)
    | some _ => (poll_loop polls, 1)

/-- `processing.py:104-108`: the `aiohttp.ClientResponseError` handler —
status 401 maps to `replicate_auth`, any other raised status to
`replicate_http`. -/
def classify_client_response_error (status : Nat) : String :=
  if status = 401 then "replicate_auth" else "replicate_http"

/-! ### Scheduling permit (`_SEM`) -/

/-- A semaphore event: one task acquiring or releasing the global `_SEM`. -/
inductive SemEv where
  | acq
  | rel
  deriving Repr, DecidableEq

/-- Traces realizable under `asyncio.Semaphore(N)` semantics, starting from
`h` current holders: an acquire completes only while fewer than `N` tasks
hold the permit, a release only while some task does. -/
def valid_sem_trace (N : Nat) : Nat → List SemEv → Bool
  | _, [] => true
  | h, .acq :: rest => decide (h < N) && valid_sem_trace N (h + 1) rest
  | h, .rel :: rest => decide (0 < h) && valid_sem_trace N (h - 1) rest

/-- The holder counts observed along a trace (including the initial one). -/
def sem_counts : Nat → List SemEv → List Nat
  | h, [] => [h]
  | h, .acq :: rest => h :: sem_counts (h + 1) rest
  | h, .rel :: rest => h :: sem_counts (h - 1) rest

/-- `processing.py:41-57`: the permit events of one
`animate_photo_via_replicate` call.  The config failure returns before
`async with _SEM`; every other path — all returns and all exceptions —
exits the `async with` block, which releases the permit. -/
def animate_sem_events (cfg : Config) : List SemEv :=
  if !py_truthy cfg.token || !py_truthy cfg.model then []
  else [.acq, .rel]

/-! ### `download_file` (`processing.py:147-158`)

The destination is opened with `open(dst_path, "wb")` only after
`resp.raise_for_status()` passes; afterwards the body is streamed chunk by
chunk (`if chunk: f.write(chunk)`).  We model the stream as the list of
chunk reads the connection yields, `Except.error ()` standing for a network
failure mid-stream.  The second component is the destination file after the
call: `none` if it was never created, `some content` if it exists. -/

def write_chunks (acc : List Nat) :
    List (Except Unit (List Nat)) → Except Unit Unit × Option (List Nat)
  | [] => (.ok (), some acc)
  | .error () :: _ => (.error (), some acc)
  | .ok c :: rest => write_chunks (acc ++ c) rest

/-- `download_file(url, dst_path)`: outcome and resulting destination file. -/
def download_file (resp_ok : Bool) (chunks : List (Except Unit (List Nat))) :
    Except Unit Unit × Option (List Nat) :=
  if !resp_ok then (.error (), none)
  else write_chunks [] chunks

/-! ## `payments/stars_v3.py` — Stars ledger (per-user row view)

`_get_user` inserts a default row `(credits=0, topup=0, unlimited_until=0)`
for an unknown user, so a single user's state is always a triple of
integers. Note: `app.py` does not import this module; `spend_credit` has no
caller in the repository. -/

structure StarsUser where
  credits : Int
  stars_topup_total : Int
  day_unlimited_until : Int
  deriving Repr, DecidableEq

/-- `stars_v3.has_unlimited`: `int(time.time()) < int(until or 0)`. -/
def has_unlimited (now : Int) (u : StarsUser) : Bool :=
  decide (now < u.day_unlimited_until)

/-- `stars_v3.spend_credit` (`stars_v3.py:58-67`): unlimited first (no
debit), then a debit guarded by `credits > 0`, else failure. -/
def spend_credit (now : Int) (u : StarsUser) : Bool × StarsUser :=
  if has_unlimited now u then (true, u)
  else if 0 < u.credits then (true, { u with credits := u.credits - 1 })
  else (false, u)

/-! ## Ledger operation traces

All mutations `app.py` ever applies to `user_credits` and `limiter`: credit
grants (referral bonus `+1` at `app.py:552/783`, promo grants at
`app.py:766` — always a non-negative amount), admission queries
(`limiter.can_use` at `app.py:914`), and the settlement step of
`on_confirm_ok`.  `TEST_MODE` is `False` at startup (`app.py:455`); the
trace model covers non-admin traffic, for which the `TEST_MODE and
is_admin` bypass is off. -/

inductive LedgerOp where
  | add (uid : Nat) (n : Nat)
  | can_use_query (uid : Nat)
  | settle (uid : Nat) (had_paid success : Bool)
  deriving Repr, DecidableEq

/-- Apply one operation to the app state. -/
def apply_op (st : AppState) : LedgerOp → AppState
  | .add uid n =>
    { st with user_credits :=
        fun j => if j = uid then st.user_credits uid + n else st.user_credits j }
  | .can_use_query uid => { st with limiter := (can_use st.limiter uid).2 }
  | .settle uid had_paid success =>
    if success then settle_success false had_paid st uid else st

/-- Run a trace from a state. -/
def run_ops (st : AppState) : List LedgerOp → AppState
  | [] => st
  | op :: rest => run_ops (apply_op st op) rest

/-- Does this operation, applied at `st`, decrement a paid balance? -/
def is_paid_dec (st : AppState) : LedgerOp → Bool
  | .settle uid had_paid true => had_paid && decide (0 < st.user_credits uid)
  | _ => false

/-- Number of `paidCredits` decrements a trace performs from `st`. -/
def dec_count (st : AppState) : List LedgerOp → Nat
  | [] => 0
  | op :: rest =>
    (if is_paid_dec st op then 1 else 0) + dec_count (apply_op st op) rest

/-- Number of successful settlements in a trace. -/
def succ_count : List LedgerOp → Nat
  | [] => 0
  | .settle _ _ true :: rest => 1 + succ_count rest
  | _ :: rest => succ_count rest

/-! ## Photo-to-render pipeline (provider submissions)

`on_photo` rejects without touching `processing.py` (`app.py:914-916`
returns before anything network-related), and `on_confirm_ok` contains a
single call to `animate_photo_via_replicate` (`app.py:1099`) with no loop
around it, so an admitted attempt issues exactly the submissions of that
one call. -/

def pipeline_posts (test_admin : Bool) (st : AppState) (uid : Nat)
    (cfg : Config) (resp : SubmitResp) (polls : List PollResp) : Nat :=
  let adm := on_photo_admission test_admin st uid
  if adm.1 then (animate_photo_via_replicate cfg resp polls).2 else 0

/-! ## Helper lemmas -/

theorem lookup_append_of_none {α β : Type} [BEq α] (m l : List (α × β)) (k : α)
    (h : m.lookup k = none) : (m ++ l).lookup k = l.lookup k := by
  induction m with
  | nil => simp
  | cons p rest ih =>
    rw [List.cons_append, List.lookup]
    rw [List.lookup] at h
    cases hk : k == p.1 with
    | true => simp [hk] at h
    | false =>
      simp only [hk] at h ⊢
      exact ih h

/-! ## Claim theorems -/

/-- C2: settling with `success = false` — a non-`ok` provider result
(the `timeout` outcome included) or a failed artifact fetch — leaves the
account state completely unchanged: `confirm_settle` returns the input
state, so `paidCredits` is not decremented and the free quota is not
marked used.  The last conjunct ties the `timeout` code to the embedded
provider client: a run whose polls never reach a terminal state ends in
`timeout`. -/
theorem settle_failure_no_charge :
    (∀ (ta hp : Bool) (st : AppState) (uid : Nat) (code : String)
        (fields : List String) (fo so : Bool),
      confirm_settle ta hp st uid (.error code fields) fo so = st) ∧
    (∀ (ta hp : Bool) (st : AppState) (uid : Nat) (url : String) (so : Bool),
      confirm_settle ta hp st uid (.ok url) false so = st) ∧
    ((animate_photo_via_replicate ⟨some "t", some "m"⟩ ⟨201, "", some "g"⟩ []).1 =
      .error "timeout" []) := by
  refine ⟨fun ta hp st uid code fields fo so => rfl,
          fun ta hp st uid url so => rfl, rfl⟩

/-- C10: querying the free-usage limiter is not side-effect free — for a
`user_id` absent from `_usage`, one `can_use` call inserts it with count
`0`, so `users_count` grows by one while `total_count` stays unchanged. -/
theorem can_use_inserts_user (lim : FreeUsageLimiter) (uid : Nat)
    (h : lim.usage.lookup uid = none) :
    users_count (can_use lim uid).2 = users_count lim + 1 ∧
    total_count (can_use lim uid).2 = total_count lim ∧
    (can_use lim uid).2.usage.lookup uid = some 0 := by
  refine ⟨?_, ?_, ?_⟩
  · simp [can_use, dd_read, h, users_count]
  · simp [can_use, dd_read, h, total_count]
  · simp only [can_use, dd_read, h]
    rw [lookup_append_of_none _ _ _ h]
    simp [List.lookup]

/-- Witness for `can_use_inserts_user` at a fresh limiter and user 7. -/
theorem can_use_inserts_user_w :
    users_count (can_use ⟨1, [], 0⟩ 7).2 = users_count ⟨1, [], 0⟩ + 1 ∧
    total_count (can_use ⟨1, [], 0⟩ 7).2 = total_count ⟨1, [], 0⟩ ∧
    (can_use (⟨1, [], 0⟩ : FreeUsageLimiter) 7).2.usage.lookup 7 = some 0 :=
  can_use_inserts_user ⟨1, [], 0⟩ 7 (by rfl)

/-- C9 (code evaluated at the failing input): a fetch that fails after the
first chunk was written leaves the partially written destination file in
place — `download_file` performs no cleanup, contrary to the claim.  (When
the initial response fails before the file is opened, no file exists.) -/
theorem download_partial_file_remains :
    download_file true [.ok [104, 105], .error ()] = (.error (), some [104, 105]) ∧
    download_file false [] = (.error (), none) := by
  refine ⟨rfl, rfl⟩

/-- C1 counterexample: admission/`had_paid` recorded on source `paid`, but
the paid balance dropped to `0` before settlement; the successful-render
debit block then *marks the free allowance used* (usage count 1, total 1)
and leaves `paidCredits` at `0` — the charge is not made against the
recorded `paid` source and it does consume the free allowance. -/
theorem settle_paid_dropped_marks_free_cx :
    (settle_success false true ⟨fun _ => 0, ⟨1, [], 0⟩⟩ 1).limiter.usage.lookup 1 =
      some 1 ∧
    (settle_success false true ⟨fun _ => 0, ⟨1, [], 0⟩⟩ 1).limiter.total = 1 ∧
    (settle_success false true ⟨fun _ => 0, ⟨1, [], 0⟩⟩ 1).user_credits 1 = 0 := by
  refine ⟨rfl, rfl, rfl⟩

/-- C1 (amended): the funding source is re-evaluated at settlement time.
With `had_paid` recorded, a confirmed success decrements `paidCredits` and
leaves the free limiter untouched only if the paid balance is *still*
strictly positive at settlement; if it dropped to `0` mid-flight, the free
allowance is marked used instead and `paidCredits` is unchanged. -/
theorem settle_charges_recheck (st : AppState) (uid : Nat) :
    (0 < st.user_credits uid →
      (settle_success false true st uid).user_credits uid =
        st.user_credits uid - 1 ∧
      (settle_success false true st uid).limiter = st.limiter) ∧
    (st.user_credits uid ≤ 0 →
      (settle_success false true st uid).user_credits uid =
        st.user_credits uid ∧
      (settle_success false true st uid).limiter = mark_used st.limiter uid) := by
  constructor
  · intro h
    simp [settle_success, h]
  · intro h
    have h2 : ¬(0 < st.user_credits uid) := not_lt.mpr h
    simp [settle_success, h2]

/-- Witness for `settle_charges_recheck`: balance `5` is decremented to
`4`; balance `0` marks the free limiter instead. -/
theorem settle_charges_recheck_w :
    (settle_success false true ⟨fun _ => 5, ⟨1, [], 0⟩⟩ 2).user_credits 2 = 4 ∧
    (settle_success false true ⟨fun _ => 0, ⟨1, [], 0⟩⟩ 2).limiter =
      mark_used (⟨1, [], 0⟩ : FreeUsageLimiter) 2 := by
  constructor
  · have h := (settle_charges_recheck ⟨fun _ => 5, ⟨1, [], 0⟩⟩ 2).1 (by decide)
    rw [h.1]
    rfl
  · exact ((settle_charges_recheck ⟨fun _ => 0, ⟨1, [], 0⟩⟩ 2).2 (by decide)).2

/-- C3 counterexample: a Stars unlimited pass in the future
(`has_unlimited 50 ⟨0, 0, 100⟩ = true`) does not admit the caller — the
photo handler's gate, which never consults the Stars module, rejects a
user with no `user_credits` and an exhausted free quota. -/
theorem admission_ignores_unlimited_cx :
    has_unlimited 50 ⟨0, 0, 100⟩ = true ∧
    (on_photo_admission false ⟨fun _ => 0, ⟨1, [(7, 1)], 1⟩⟩ 7).1 = false := by
  refine ⟨rfl, rfl⟩

/-- C3 (amended): the live admission gate checks paid credits first and the
free quota second, and never consults an unlimited source: with
`user_credits > 0` the caller is admitted and the free limiter is not even
queried; otherwise the caller is admitted exactly when the free quota is
unused (the query mutating the limiter's defaultdict); a rejected caller
causes zero provider submissions. -/
theorem admission_priority (st : AppState) (uid : Nat) (cfg : Config)
    (resp : SubmitResp) (polls : List PollResp) :
    (0 < st.user_credits uid → on_photo_admission false st uid = (true, st)) ∧
    (st.user_credits uid ≤ 0 →
      (on_photo_admission false st uid).1 = (can_use st.limiter uid).1 ∧
      (on_photo_admission false st uid).2.limiter = (can_use st.limiter uid).2) ∧
    ((on_photo_admission false st uid).1 = false →
      pipeline_posts false st uid cfg resp polls = 0) := by
  refine ⟨?_, ?_, ?_⟩
  · intro h
    simp [on_photo_admission, not_le.mpr h]
  · intro h
    simp [on_photo_admission, h]
  · intro h
    simp [pipeline_posts, h]

/-- Witness for `admission_priority`: paid credits admit without touching
the limiter; an already-used free quota with no credits yields zero
provider submissions. -/
theorem admission_priority_w :
    on_photo_admission false ⟨fun _ => 3, ⟨1, [], 0⟩⟩ 5 =
      (true, ⟨fun _ => 3, ⟨1, [], 0⟩⟩) ∧
    pipeline_posts false ⟨fun _ => 0, ⟨1, [(5, 1)], 1⟩⟩ 5 ⟨some "t", some "m"⟩
      ⟨402, "", none⟩ [] = 0 := by
  constructor
  · exact (admission_priority ⟨fun _ => 3, ⟨1, [], 0⟩⟩ 5 ⟨some "t", some "m"⟩
      ⟨402, "", none⟩ []).1 (by decide)
  · exact (admission_priority ⟨fun _ => 0, ⟨1, [(5, 1)], 1⟩⟩ 5 ⟨some "t", some "m"⟩
      ⟨402, "", none⟩ []).2.2 (by rfl)

/-- C5 counterexample: a `401` (and likewise a `403`) submit response is
classified as `replicate_create` — the generic transient failure — not as
the auth error `replicate_auth`; only the exception handler maps a raised
status `401` to `replicate_auth`. -/
theorem submit_401_not_auth_cx :
    animate_photo_via_replicate ⟨some "tok", some "mdl"⟩ ⟨401, "", none⟩ [] =
      (.error "replicate_create" [], 1) ∧
    animate_photo_via_replicate ⟨some "tok", some "mdl"⟩ ⟨403, "", none⟩ [] =
      (.error "replicate_create" [], 1) ∧
    "replicate_create" ≠ "replicate_auth" := by
  refine ⟨rfl, rfl, by decide⟩

/-- C5 (amended): with credentials and model configured, a `402` submit
response yields `replicate_402` (QuotaExceeded), a `422` yields
`replicate_422_fields` carrying the heuristic (possibly empty) field list,
and every other non-`200/201` response — `401` and `403` included — yields
the generic `replicate_create`; `replicate_auth` arises only from the
HTTP-client exception path and only for a raised status `401`; missing
configuration yields `config` with zero network submissions, regardless of
any response. -/
theorem submit_error_taxonomy (cfg : Config) (resp : SubmitResp)
    (polls : List PollResp) :
    (py_truthy cfg.token = true → py_truthy cfg.model = true →
      (resp.status = 402 →
        animate_photo_via_replicate cfg resp polls =
          (.error "replicate_402" [], 1)) ∧
      (resp.status = 422 →
        animate_photo_via_replicate cfg resp polls =
          (.error "replicate_422_fields" (_extract_fields resp.body), 1)) ∧
      (resp.status ≠ 200 → resp.status ≠ 201 → resp.status ≠ 402 →
        resp.status ≠ 422 →
        animate_photo_via_replicate cfg resp polls =
          (.error "replicate_create" [], 1))) ∧
    classify_client_response_error 401 = "replicate_auth" ∧
    (∀ s : Nat, s ≠ 401 → classify_client_response_error s = "replicate_http") ∧
    (py_truthy cfg.token = false ∨ py_truthy cfg.model = false →
      animate_photo_via_replicate cfg resp polls = (.error "config" [], 0)) := by
  refine ⟨?_, rfl, ?_, ?_⟩
  · intro ht hm
    refine ⟨?_, ?_, ?_⟩
    · intro h
      simp [animate_photo_via_replicate, ht, hm, h]
    · intro h
      simp [animate_photo_via_replicate, ht, hm, h]
    · intro h200 h201 h402 h422
      simp [animate_photo_via_replicate, ht, hm, h200, h201, h402, h422]
  · intro s hs
    simp [classify_client_response_error, hs]
  · intro h
    rcases h with h | h <;> simp [animate_photo_via_replicate, h]

/-- Witness for `submit_error_taxonomy`: the `402` mapping and the
missing-token fast failure, at concrete inputs. -/
theorem submit_error_taxonomy_w :
    animate_photo_via_replicate ⟨some "t", some "m"⟩ ⟨402, "", none⟩ [] =
      (.error "replicate_402" [], 1) ∧
    animate_photo_via_replicate ⟨none, some "m"⟩ ⟨402, "", none⟩ [] =
      (.error "config" [], 0) := by
  constructor
  · exact ((submit_error_taxonomy ⟨some "t", some "m"⟩ ⟨402, "", none⟩ []).1
      (by rfl) (by rfl)).1 (by rfl)
  · exact (submit_error_taxonomy ⟨none, some "m"⟩ ⟨402, "", none⟩ []).2.2.2
      (Or.inl (by rfl))

/-- C6 counterexample: a provider `402` (`QuotaExceeded`) on submit
terminates the attempt after exactly one submission — no second
(fallback-model) submission is ever issued, and indeed no fallback model id
exists anywhere in the configuration (`Config` carries only the primary
token and model). -/
theorem quota402_single_submission_cx :
    animate_photo_via_replicate ⟨some "tok", some "mdl"⟩
      ⟨402, "insufficient credit", none⟩ [] = (.error "replicate_402" [], 1) ∧
    (1 : Nat) ≠ 2 := by
  refine ⟨rfl, by decide⟩

/-- C6 (amended): the orchestrator performs no automatic retry at all — a
single `animate_photo_via_replicate` call issues at most one provider
submission (zero when configuration is missing, one otherwise), for every
error kind including the provider's `402`. -/
theorem no_automatic_retry (cfg : Config) (resp : SubmitResp)
    (polls : List PollResp) :
    (animate_photo_via_replicate cfg resp polls).2 ≤ 1 := by
  unfold animate_photo_via_replicate
  split
  · simp
  · split
    · simp
    · split
      · split <;> simp
      · split <;> simp

/-! ### Helper lemmas for the ledger-trace invariants -/

theorem apply_op_keeps_nonneg (st : AppState) (op : LedgerOp)
    (h : ∀ uid, 0 ≤ st.user_credits uid) :
    ∀ uid, 0 ≤ (apply_op st op).user_credits uid := by
  intro uid
  cases op with
  | add k n =>
    simp only [apply_op]
    by_cases hk : uid = k
    · have hc := h k
      simp only [hk, if_pos rfl]
      positivity
    · simpa [hk] using h uid
  | can_use_query k => simpa [apply_op] using h uid
  | settle k hp s =>
    cases s with
    | false => simpa [apply_op] using h uid
    | true =>
      simp only [apply_op, if_pos, settle_success, Bool.false_eq_true, if_false]
      split
    -- the debit branch
      · by_cases hk : uid = k
        · have hc : 0 < st.user_credits k := by
            rename_i hcond
            exact hcond.2
          simp only [hk, if_pos rfl]
          omega
        · simpa [hk] using h uid
      · simpa using h uid

theorem run_ops_keeps_nonneg (ops : List LedgerOp) :
    ∀ st : AppState, (∀ uid, 0 ≤ st.user_credits uid) →
      ∀ uid, 0 ≤ (run_ops st ops).user_credits uid := by
  induction ops with
  | nil => intro st h uid; simpa [run_ops] using h uid
  | cons op rest ih =>
    intro st h uid
    simp only [run_ops]
    exact ih _ (apply_op_keeps_nonneg st op h) uid

theorem dec_count_le_succ_count (ops : List LedgerOp) :
    ∀ st : AppState, dec_count st ops ≤ succ_count ops := by
  induction ops with
  | nil => intro st; simp [dec_count, succ_count]
  | cons op rest ih =>
    intro st
    have hrest := ih (apply_op st op)
    cases op with
    | add k n =>
      simpa [dec_count, succ_count, is_paid_dec] using hrest
    | can_use_query k =>
      simpa [dec_count, succ_count, is_paid_dec] using hrest
    | settle k hp s =>
      cases s with
      | false => simpa [dec_count, succ_count, is_paid_dec] using hrest
      | true =>
        have hone : (if is_paid_dec st (.settle k hp true) then 1 else 0) ≤ 1 := by
          split <;> simp
        simp only [dec_count, succ_count]
        omega

/-- C4: `paidCredits` never goes negative — from process start, after any
sequence of credit grants, admission queries and settlements, every
balance is `≥ 0`; the number of paid decrements a trace performs never
exceeds its number of successful settlements; and `stars_v3.spend_credit`
either leaves `credits` unchanged or decrements by one under a
strictly-positive guard. -/
theorem paid_credits_never_negative :
    (∀ (ops : List LedgerOp) (uid : Nat),
      0 ≤ (run_ops init_app_state ops).user_credits uid) ∧
    (∀ (st : AppState) (ops : List LedgerOp),
      dec_count st ops ≤ succ_count ops) ∧
    (∀ (now : Int) (u : StarsUser),
      (spend_credit now u).2.credits = u.credits ∨
      (0 < u.credits ∧ (spend_credit now u).2.credits = u.credits - 1)) := by
  refine ⟨?_, ?_, ?_⟩
  · intro ops uid
    exact run_ops_keeps_nonneg ops init_app_state (fun _ => le_refl 0) uid
  · intro st ops
    exact dec_count_le_succ_count ops st
  · intro now u
    by_cases h1 : has_unlimited now u = true
    · simp [spend_credit, h1]
    · by_cases h2 : 0 < u.credits
      · right
        simp [spend_credit, h1, h2]
      · left
        simp [spend_credit, h1, h2]

/-- C7: on a `succeeded` poll the artifact URL is the first output entry
matching a known media extension (`.mp4`/`.gif`) — not the first list
element: for `["https://x/y.png", "https://x/y.mp4"]` the `.mp4` entry is
chosen — and when no URL is extractable the outcome is the distinct
`replicate_no_output` error. -/
theorem pick_video_url_prefers_media :
    (∀ (xs : List PyVal) (u : String), xs.find? is_media_str = some (.str u) →
      _pick_video_url (.list xs) = some u) ∧
    (_pick_video_url (.list [.str "https://x/y.png", .str "https://x/y.mp4"]) =
      some "https://x/y.mp4") ∧
    (∀ out : PyVal, _pick_video_url out = none →
      poll_loop [⟨200, "succeeded", out⟩] = .error "replicate_no_output" []) := by
  refine ⟨?_, ?_, ?_⟩
  · intro xs u h
    simp [_pick_video_url, h]
  · rfl
  · intro out h
    simp [poll_loop, h]

/-- Witness for `pick_video_url_prefers_media`: a concrete list whose
second element is the media match, and a `succeeded` poll with a `None`
output yielding `replicate_no_output`. -/
theorem pick_video_url_prefers_media_w :
    _pick_video_url (.list [.str "a.txt", .str "b.mp4"]) = some "b.mp4" ∧
    poll_loop [⟨200, "succeeded", .pynone⟩] = .error "replicate_no_output" [] := by
  constructor
  · exact pick_video_url_prefers_media.1 [.str "a.txt", .str "b.mp4"] "b.mp4" (by rfl)
  · exact pick_video_url_prefers_media.2.2 .pynone (by rfl)

/-- C8: under `asyncio.Semaphore(N)` semantics every holder count observed
along any realizable acquire/release interleaving stays `≤ N`; one
`animate_photo_via_replicate` call acquires and releases the permit in
matched pairs on every path (the `async with` releases on all exits, and
the config fast-failure never acquires); and the configured limit defaults
to the fixed positive integer `4`. -/
theorem scheduler_permit_bound :
    (∀ (N h : Nat) (tr : List SemEv), valid_sem_trace N h tr = true → h ≤ N →
      ∀ c ∈ sem_counts h tr, c ≤ N) ∧
    (∀ cfg : Config,
      (animate_sem_events cfg).count .acq = (animate_sem_events cfg).count .rel) ∧
    0 < ANIMATE_CONCURRENCY_default := by
  refine ⟨?_, ?_, ?_⟩
  · intro N h tr
    induction tr generalizing h with
    | nil =>
      intro _ hh c hc
      simp [sem_counts] at hc
      omega
    | cons e rest ih =>
      cases e with
      | acq =>
        intro hv hh c hc
        simp only [valid_sem_trace, Bool.and_eq_true, decide_eq_true_eq] at hv
        simp only [sem_counts, List.mem_cons] at hc
        rcases hc with hc | hc
        · omega
        · exact ih (h + 1) hv.2 (by omega) c hc
      | rel =>
        intro hv hh c hc
        simp only [valid_sem_trace, Bool.and_eq_true, decide_eq_true_eq] at hv
        simp only [sem_counts, List.mem_cons] at hc
        rcases hc with hc | hc
        · omega
        · exact ih (h - 1) hv.2 (by omega) c hc
  · intro cfg
    unfold animate_sem_events
    split <;> rfl
  · decide

/-- Witness for `scheduler_permit_bound`: a concrete interleaving of three
tasks under limit `2` keeps every observed holder count at most `2`. -/
theorem scheduler_permit_bound_w :
    valid_sem_trace 2 0 [SemEv.acq, .acq, .rel, .acq, .rel, .rel] = true ∧
    2 ∈ sem_counts 0 [SemEv.acq, .acq, .rel, .acq, .rel, .rel] ∧ 2 ≤ 2 := by
  refine ⟨by decide, by decide, ?_⟩
  exact scheduler_permit_bound.1 2 0 [SemEv.acq, .acq, .rel, .acq, .rel, .rel]
    (by decide) (by decide) 2 (by decide)

end MagicPhotoBot
